import Mathlib

/-!
Verification development for the IP allocation planner (`src/ip_planner.py`).

The planner partitions a master IPv4 block according to a two-phase plan of
typed steps, then back-fills human-readable ranges on section headers.
This file is a shallow embedding of that program: IPv4 addresses are `Nat`
(the source keeps them below `2 ^ 32`), the Python `ipaddress` library calls
used by the source are modelled by the arithmetic they perform, rows
(Python dicts) are a structure holding every key the source reads or
writes, and the interpreter is explicit state passing over the plan list.
-/

namespace IpPlanner

/-- Model of `ipaddress.IPv4Network`: a (masked) network address plus a
    prefix length.  `addr` is the integer value of the dotted quad. -/
structure Network where
  addr : Nat
  prefixlen : Nat
deriving DecidableEq

/-- Number of addresses in the block, `2 ^ (32 - prefixlen)`
    (`IPv4Network.num_addresses`). -/
def blockSize (n : Network) : Nat := 2 ^ (32 - n.prefixlen)

/-- Python `IPv4Network.num_addresses`. -/
def numAddresses (n : Network) : Nat := blockSize n

/-- Python `IPv4Network.broadcast_address` as an integer. -/
def broadcastAddress (n : Network) : Nat := n.addr + blockSize n - 1

/-- Python `ipaddress.ip_network(addr/plen, strict=False)`: the host bits of
    `addr` are zeroed, i.e. `addr` is rounded down to the nearest multiple
    of the block size.  This is the carve operation the interpreter uses at
    both allocation sites (phase 1 lines 176-179, phase 2 line 253). -/
def ipNetworkNonstrict (addr plen : Nat) : Network :=
  ⟨addr - addr % 2 ^ (32 - plen), plen⟩

/-- Python `IPv4Network.overlaps`: the two blocks share at least one address.
    For interval blocks this is the standard interval-intersection test,
    which coincides with the endpoint-membership disjunction the library
    evaluates. -/
def overlapsB (a b : Network) : Bool :=
  decide (a.addr ≤ broadcastAddress b ∧ b.addr ≤ broadcastAddress a)

/-- Python `IPv4Network.netmask` as an integer (`2 ^ 32` minus the block size). -/
def netmaskNat (n : Network) : Nat := 2 ^ 32 - blockSize n

/-- Python `IPv4Network.subnets(new_prefix=p)`: the consecutive sub-blocks of size
    `2 ^ (32 - p)`.  The library raises `ValueError` when `p` is smaller
    than the current prefix or larger than 32; the plans this development
    evaluates never do that, and the model returns `[]` there. -/
def subnetsOf (n : Network) (newPlen : Nat) : List Network :=
  if newPlen < n.prefixlen || 32 < newPlen then []
  else (List.range (2 ^ (newPlen - n.prefixlen))).map
    fun i => ⟨n.addr + i * 2 ^ (32 - newPlen), newPlen⟩

/-- The decimal digit character for `n < 10`, as Python `str` produces. -/
def digitChar (n : Nat) : Char := Char.ofNat (48 + n)

/-- Decimal digits of `n`, most significant first, with explicit fuel. -/
def digitsAux : Nat → Nat → List Char
  | 0, _ => []
  | fuel + 1, n =>
    if n < 10 then [digitChar n] else digitsAux fuel (n / 10) ++ [digitChar (n % 10)]

/-- Decimal digits of `n`, as Python `str(n)` for a nonnegative int. -/
def natToChars (n : Nat) : List Char := digitsAux (n + 1) n

/-- Python `str(n)` for a nonnegative int. -/
def natToStr (n : Nat) : String := ⟨natToChars n⟩

/-- Python `str(IPv4Address(a))`: the dotted-quad rendering of `a`. -/
def ipToString (a : Nat) : String :=
  natToStr (a / 16777216 % 256) ++ "." ++ natToStr (a / 65536 % 256) ++ "." ++
    natToStr (a / 256 % 256) ++ "." ++ natToStr (a % 256)

/-- One output row.  The source represents rows as dicts; this structure
    has a field for every key the program reads or writes.  String fields
    default to `""` exactly as `EMPTY_ROW_TEMPLATE` initialises them, and
    the optional fields model keys that may be absent (`dict.get` yielding
    `None`).  `network` is the allocated network the row was formatted
    from — the spec's AllocationRecord payload, recoverable in the source
    from the "Network Address" and "CIDR" strings. -/
structure Row where
  building : String := ""
  equipment : String := ""
  networkAddress : String := ""
  ipRange : String := ""
  cidrStr : String := ""
  subnetMask : String := ""
  sviGateway : String := ""
  hosts : Option Nat := none
  network : Option Network := none
  isRangePlaceholder : Bool := false
  carvingName : Option String := none
  allocationStartIndex : Nat := 0
  carvingLabel : Option String := none
  aggregateNetwork : Option Network := none
deriving DecidableEq

/-- The source's `EMPTY_ROW_TEMPLATE.copy()`. -/
def emptyRow : Row := {}

/-- The `COLUMN_HEADERS` row.  The source also stores the literal strings
    "SVI GATEWAY" and "Hosts" under those keys; the header-range resolver
    only ever reads `building`, `isRangePlaceholder`, `networkAddress` and
    `carvingLabel` of this row, all modelled faithfully. -/
def columnHeadersRow : Row :=
  { building := "Building", equipment := "Assigned Equipment",
    networkAddress := "Network Address", ipRange := "Assigned IP Range",
    cidrStr := "CIDR", subnetMask := "Subnet Mask", sviGateway := "SVI GATEWAY" }

/-- Source `format_allocation_row` (lines 99-124).  The SVI gateway is
    computed and then forced to the empty string by the source, so the
    model stores `""` directly. -/
def format_allocation_row (network : Network) (building purpose : String) : Row :=
  if 31 ≤ network.prefixlen then
    { building := building, equipment := purpose,
      networkAddress := ipToString network.addr,
      ipRange := ipToString network.addr ++ " - " ++ ipToString (broadcastAddress network),
      cidrStr := "/" ++ natToStr network.prefixlen,
      hosts := some (numAddresses network),
      subnetMask := ipToString (netmaskNat network),
      sviGateway := "",
      network := some network }
  else
    { building := building, equipment := purpose,
      networkAddress := ipToString network.addr,
      ipRange := ipToString (network.addr + 1) ++ " - " ++ ipToString (broadcastAddress network - 1),
      cidrStr := "/" ++ natToStr network.prefixlen,
      hosts := some (numAddresses network - 2),
      subnetMask := ipToString (netmaskNat network),
      sviGateway := "",
      network := some network }

/-- One plan step.  The source keeps steps as loosely-typed dicts; fields
    here model the keys, `Option` marking keys that may be absent.  Keys
    the source reads with `item[...]` (raising `KeyError` when absent) are
    modelled with a `getD` default at the use site; every plan this
    development evaluates carries those keys, as `MASTER_PLAN` does. -/
structure PlanItem where
  phase : Nat := 0
  itemType : String := ""
  category : Option String := none
  purpose : Option String := none
  count : Option Nat := none
  cidr : Option Nat := none
  buildingSpecific : Bool := false
  carvingName : Option String := none
  carvingLabel : Option String := none
  name : Option String := none
  baseBlock : Option String := none
deriving DecidableEq

/-- Constant `NUM_BLDGS_BASE` from the source configuration. -/
def NUM_BLDGS_BASE : Nat := 10

/-- Python dict assignment `d[k] = v`, modelled by shadowing: the dicts in
    the source are only ever read back through single-key lookup, never
    iterated, so prepending the new binding is observationally faithful. -/
def setKey {α : Type} (k : String) (v : α) (l : List (String × α)) : List (String × α) :=
  (k, v) :: l

/-- Phase-1 interpreter state: the master cursor `current_network_address`,
    the two registries and the accumulated rows. -/
structure St1 where
  cursor : Nat
  aggPtrs : List (String × Network) := []
  carvePtrs : List (String × Nat) := []
  results : List Row := []
deriving DecidableEq

/-- Phase-1 building label (source lines 188-197): sequential `BLDG i+1`
    for the first `NUM_BLDGS_BASE` iterations of a building-specific step,
    `Reserved` afterwards; otherwise `Reserved` exactly when the step's
    purpose is the string `Reserved`, else empty. -/
def phase1BuildingName (buildingSpecific : Bool) (purpose : String) (i : Nat) : String :=
  if buildingSpecific then
    if i < NUM_BLDGS_BASE then "BLDG " ++ natToStr (i + 1) else "Reserved"
  else if purpose == "Reserved" then "Reserved" else ""

/-- Source lines 176-179: build the network non-strictly from the cursor,
    and when the cursor was not its network address, move the cursor down
    to that address and rebuild.  Returns the (possibly moved) cursor and
    the network. -/
def phase1Carve (cur plen : Nat) : Nat × Network :=
  let n0 := ipNetworkNonstrict cur plen
  if cur ≠ n0.addr then (n0.addr, ipNetworkNonstrict n0.addr plen) else (cur, n0)

/-- The phase-1 `for i in range(count)` body for `allocation` and
    `aggregate` steps (source lines 174-211).  `Sum.inl` is the source's
    early `return allocation_results, current_network_address`: it fires on
    `ValueError` from an out-of-range prefix (modelled as `cidr > 32`) and
    when the carved network does not overlap the master block. -/
def phase1AllocLoop (master : Network) (item : PlanItem) :
    Nat → Nat → St1 → Sum (List Row × Nat) St1
  | 0, _, st => .inr st
  | fuel + 1, i, st =>
    let targetCidr := item.cidr.getD 33
    if 32 < targetCidr then .inl (st.results, st.cursor)
    else
      let cn := phase1Carve st.cursor targetCidr
      if overlapsB master cn.2 = false then .inl (st.results, cn.1)
      else
        let buildingName := phase1BuildingName item.buildingSpecific (item.purpose.getD "") i
        let st1 :=
          if item.itemType == "aggregate" then
            { st with aggPtrs := setKey (item.name.getD "") cn.2 st.aggPtrs,
                      carvePtrs := setKey (item.name.getD "") cn.2.addr st.carvePtrs }
          else st
        let row := { format_allocation_row cn.2 buildingName (item.purpose.getD "") with
                       carvingLabel := item.carvingLabel }
        let st2 :=
          if item.itemType ≠ "aggregate" then { st1 with results := st1.results ++ [row] }
          else st1
        phase1AllocLoop master item fuel (i + 1) { st2 with cursor := broadcastAddress cn.2 + 1 }

/-- One phase-1 step (source lines 141-211).  `remainder` is an explicit
    no-op in the source; unknown step types fall through unchanged. -/
def phase1Step (master : Network) (st : St1) (item : PlanItem) : Sum (List Row × Nat) St1 :=
  if item.itemType == "blank_row" then
    .inr { st with results := st.results ++ [emptyRow] }
  else if item.itemType == "header" then
    .inr { st with results := st.results ++ [{ emptyRow with building := item.category.getD "None" }] }
  else if item.itemType == "header_with_range" then
    let headerRow : Row :=
      { emptyRow with
        isRangePlaceholder := true,
        carvingName := match item.carvingName with
          | some cn => some cn
          | none => item.category,
        allocationStartIndex := st.results.length + 1,
        carvingLabel := item.carvingLabel }
    .inr { st with results := st.results ++ [headerRow, columnHeadersRow] }
  else if item.itemType == "allocation" || item.itemType == "aggregate" then
    phase1AllocLoop master item (item.count.getD 1) 0 st
  else .inr st

/-- Phase 1 over the (already phase-filtered) plan, propagating the early
    return. -/
def phase1Steps (master : Network) : List PlanItem → St1 → Sum (List Row × Nat) St1
  | [], st => .inr st
  | item :: rest, st =>
    match phase1Step master st item with
    | .inl r => .inl r
    | .inr st1 => phase1Steps master rest st1

/-- Phase-2 interpreter state.  `lastCarvingAddress` and `lastBaseNetwork`
    model the Python locals `carving_address` and `base_network`, which
    persist across loop iterations and are only refreshed when the item
    names a registered base block; `none` is the state before first
    assignment (reading it would be a `NameError` in the source, which the
    plans considered never do). -/
structure St2 where
  carvePtrs : List (String × Nat)
  results : List Row
  lastCarvingAddress : Option Nat := none
  lastBaseNetwork : Option Network := none
deriving DecidableEq

/-- Phase-2 building label and reserved flag (source lines 261-268). -/
def phase2BuildingData (buildingSpecific : Bool) (i : Nat) : String × Bool :=
  if buildingSpecific then
    if i < NUM_BLDGS_BASE then ("BLDG " ++ natToStr (i + 1), false) else ("Reserved", true)
  else ("", false)

/-- The phase-2 `for i in range(count)` body of an `allocation` step
    (source lines 251-278): carve non-strictly at the carving address,
    `break` on a prefix `ValueError` (cidr > 32) or when the carved
    network's broadcast passes the base block's broadcast, otherwise emit
    a row and advance.  Returns the final carving address and the rows. -/
def phase2AllocLoop (base : Network) (item : PlanItem) :
    Nat → Nat → Nat → List Row → Nat × List Row
  | 0, _, addr, rows => (addr, rows)
  | fuel + 1, i, addr, rows =>
    let targetCidr := item.cidr.getD 33
    if 32 < targetCidr then (addr, rows)
    else
      let n := ipNetworkNonstrict addr targetCidr
      if broadcastAddress base < broadcastAddress n then (addr, rows)
      else
        let bd := phase2BuildingData item.buildingSpecific i
        let pFinal := if bd.2 then "Reserved" else item.purpose.getD ""
        let row := { format_allocation_row n bd.1 pFinal with carvingLabel := item.carvingLabel }
        phase2AllocLoop base item fuel (i + 1) (broadcastAddress n + 1) (rows ++ [row])

/-- The `carve_remainder` subnet loop (source lines 288-296): walk the
    subnets in order, `break` when one passes the base block's broadcast
    or fails to overlap it, emit a row per kept subnet and remember the
    pointer past the last kept subnet. -/
def carveRemainderLoop (base : Network) (purpose : String) (label : Option String) :
    List Network → List Row × Option Nat
  | [] => ([], none)
  | sub :: rest =>
    if broadcastAddress base < broadcastAddress sub then ([], none)
    else if overlapsB base sub then
      let row := { format_allocation_row sub "UNUSED" purpose with carvingLabel := label }
      let rec2 := carveRemainderLoop base purpose label rest
      (row :: rec2.1, some (rec2.2.getD (broadcastAddress sub + 1)))
    else ([], none)

/-- One phase-2 step (source lines 214-296).  A step naming an unregistered
    base block is skipped; a step naming a registered one refreshes the
    carving locals from the registries. -/
def phase2Step (aggPtrs : List (String × Network)) (st : St2) (item : PlanItem) : St2 :=
  if item.itemType == "blank_row" then { st with results := st.results ++ [emptyRow] }
  else
    let skip : Bool := match item.baseBlock with
      | some b => (aggPtrs.lookup b).isNone
      | none => false
    if skip then st
    else
      let carvingAddress : Option Nat := match item.baseBlock with
        | some b => st.carvePtrs.lookup b
        | none => st.lastCarvingAddress
      let baseNetwork : Option Network := match item.baseBlock with
        | some b => aggPtrs.lookup b
        | none => st.lastBaseNetwork
      let st := { st with lastCarvingAddress := carvingAddress, lastBaseNetwork := baseNetwork }
      if item.itemType == "header" then
        { st with results := st.results ++ [{ emptyRow with building := item.category.getD "" }] }
      else if item.itemType == "header_with_range" then
        let headerRow : Row :=
          { emptyRow with
            isRangePlaceholder := true,
            carvingName := some (item.carvingName.getD ""),
            allocationStartIndex := st.results.length + 1,
            carvingLabel := item.carvingLabel,
            aggregateNetwork := baseNetwork }
        { st with results := st.results ++ [headerRow, columnHeadersRow] }
      else if item.itemType == "allocation" then
        let base := baseNetwork.getD ⟨0, 0⟩
        let res := phase2AllocLoop base item (item.count.getD 0) 0 (carvingAddress.getD 0) []
        { st with results := st.results ++ res.2,
                  carvePtrs := if res.2.isEmpty then st.carvePtrs
                               else setKey (item.baseBlock.getD "") res.1 st.carvePtrs,
                  lastCarvingAddress := if res.2.isEmpty then carvingAddress else some res.1 }
      else if item.itemType == "carve_remainder" then
        let base := baseNetwork.getD ⟨0, 0⟩
        let remaining := ipNetworkNonstrict (carvingAddress.getD 0) base.prefixlen
        if broadcastAddress base ≤ remaining.addr then st
        else
          let res := carveRemainderLoop base (item.purpose.getD "") item.carvingLabel
            (subnetsOf remaining (item.cidr.getD 33))
          { st with results := st.results ++ res.1,
                    carvePtrs := match res.2 with
                      | some p => setKey (item.baseBlock.getD "") p st.carvePtrs
                      | none => st.carvePtrs }
      else st

/-- A row passes the resolver's collection filter (source lines 315-319)
    when its "Network Address" is truthy and its section tag equals the
    header's tag (Python `None == None` included, via `Option`). -/
def rowMatches (tag : Option String) (r : Row) : Bool :=
  r.networkAddress ≠ "" && r.carvingLabel == tag

/-- The resolver's forward scan (source lines 308-319): stop at the first
    row whose building field is empty or which is itself a range
    placeholder, collecting the rows that pass the filter. -/
def scanMatches (tag : Option String) : List Row → List Row
  | [] => []
  | r :: rest =>
    if r.building == "" then []
    else if r.isRangePlaceholder then []
    else if rowMatches tag r then r :: scanMatches tag rest
    else scanMatches tag rest

/-- List-prefix test used by the splitter. -/
def isPrefixL : List Char → List Char → Bool
  | [], _ => true
  | _ :: _, [] => false
  | a :: as, b :: bs => a == b && isPrefixL as bs

/-- Find the first occurrence of `sep`: the characters before it and the
    characters after it. -/
def splitFirst (sep : List Char) : List Char → Option (List Char × List Char)
  | [] => none
  | c :: cs =>
    if isPrefixL sep (c :: cs) then some ([], (c :: cs).drop sep.length)
    else match splitFirst sep cs with
      | some lr => some (c :: lr.1, lr.2)
      | none => none

/-- Fuelled worker for `pySplit`. -/
def pySplitAux (sep : List Char) : Nat → List Char → List (List Char)
  | 0, cs => [cs]
  | fuel + 1, cs =>
    match splitFirst sep cs with
    | none => [cs]
    | some lr => lr.1 :: pySplitAux sep fuel lr.2

/-- Python `str.split(sep)` for a nonempty separator. -/
def pySplit (sep cs : List Char) : List (List Char) := pySplitAux sep (cs.length + 1) cs

/-- The separator `" - "` of the range strings. -/
def sepRange : List Char := [' ', '-', ' ']

/-- Fill one `header_with_range` placeholder (source lines 300-334): scan
    forward from its recorded start index; with at least one match the
    displayed range runs from the first match's range start to the last
    match's range end (via Python `split(' - ')[0]` and `[-1]`); with no
    match fall back to the associated aggregate's `network+1 - broadcast-1`
    span, or to "Range Not Determined" without an aggregate. -/
def fillRow (acc : List Row) (row : Row) : Row :=
  let found := scanMatches row.carvingLabel (acc.drop row.allocationStartIndex)
  let cname := row.carvingName.getD "None"
  if found.isEmpty then
    match row.aggregateNetwork with
    | some agg =>
      { row with building := cname ++ " - " ++ ipToString (agg.addr + 1) ++ " - " ++
          ipToString (broadcastAddress agg - 1) }
    | none => { row with building := cname ++ " - Range Not Determined" }
  else
    let startIp := ((pySplit sepRange (found.headD emptyRow).ipRange.toList).headD []).asString
    let endIp := ((pySplit sepRange (found.getLastD emptyRow).ipRange.toList).getLastD []).asString
    { row with building := cname ++ " - " ++ startIp ++ " - " ++ endIp }

/-- The post-processing pass (source lines 299-334): walk the row list in
    order and fill each placeholder in place, so each fill sees the list
    with the earlier fills applied, as the source's in-place mutation
    does. -/
def resolveHeaders (rows : List Row) : List Row :=
  (List.range rows.length).foldl
    (fun acc i =>
      let r := acc.getD i emptyRow
      if r.isRangePlaceholder then acc.set i (fillRow acc r) else acc)
    rows

/-- The final cleanup (source lines 343-346) drops only the
    `carving_label` key from every row; the dead comprehension at line 338
    is discarded by the source itself. -/
def stripCarvingLabel (r : Row) : Row := { r with carvingLabel := none }

/-- Source `generate_ip_allocation` after a successful parse of the master block
    (source lines 133-348): phase 1 with its early returns, then phase 2,
    then header resolution and cleanup.  The returned address is the master
    cursor, which phase 2 never moves. -/
def generate_core (master : Network) (plan : List PlanItem) : List Row × Nat :=
  match phase1Steps master (plan.filter fun p => p.phase == 1) { cursor := master.addr } with
  | .inl early => early
  | .inr st1 =>
    let st2 := (plan.filter fun p => p.phase == 2).foldl (phase2Step st1.aggPtrs)
      { carvePtrs := st1.carvePtrs, results := st1.results }
    ((resolveHeaders st2.results).map stripCarvingLabel, st1.cursor)

/-- The phase-1 aggregate registry after running phase 1, looked up by
    name; `none` when phase 1 returned early or never registered the
    name. -/
def phase1Registry (master : Network) (plan : List PlanItem) (nm : String) : Option Network :=
  match phase1Steps master (plan.filter fun p => p.phase == 1) { cursor := master.addr } with
  | .inl _ => none
  | .inr st => st.aggPtrs.lookup nm

/-- The exceptions of the Python `ipaddress` parser that the source's
    control flow distinguishes: `AddressValueError` (caught at source line
    129), `NetmaskValueError` and the plain `ValueError` for set host bits
    (both uncaught). -/
inductive ParseErr where
  | addressValue
  | netmaskValue
  | hostBits
deriving DecidableEq

/-- Are all characters decimal digits? -/
def allDigits (cs : List Char) : Bool := cs.all Char.isDigit

/-- Decimal value of a digit character. -/
def charDigit (c : Char) : Nat := c.toNat - 48

/-- Decimal value of a digit string. -/
def charsToNat (cs : List Char) : Nat := cs.foldl (fun a c => a * 10 + charDigit c) 0

/-- One dotted-quad octet, as CPython `_parse_octet` accepts it: 1-3
    decimal digits, no leading zero, value at most 255. -/
def parseOctet (cs : List Char) : Except ParseErr Nat :=
  if cs.isEmpty then .error .addressValue
  else if !allDigits cs then .error .addressValue
  else if 3 < cs.length then .error .addressValue
  else if 1 < cs.length && cs.headD '0' == '0' then .error .addressValue
  else if 255 < charsToNat cs then .error .addressValue
  else .ok (charsToNat cs)

/-- Python `ipaddress.IPv4Address(s)`: four octets joined by dots. -/
def parseIPv4Address (cs : List Char) : Except ParseErr Nat :=
  match pySplit ['.'] cs with
  | [a, b, c, d] => do
    let va ← parseOctet a
    let vb ← parseOctet b
    let vc ← parseOctet c
    let vd ← parseOctet d
    .ok (va * 16777216 + vb * 65536 + vc * 256 + vd)
  | _ => .error .addressValue

/-- The prefix-length part after the slash.  CPython additionally accepts
    dotted netmask and hostmask strings there; those are modelled as
    `NetmaskValueError` since no input this development evaluates uses
    them. -/
def parsePrefixLen (cs : List Char) : Except ParseErr Nat :=
  if cs.isEmpty || !allDigits cs then .error .netmaskValue
  else if 32 < charsToNat cs then .error .netmaskValue
  else .ok (charsToNat cs)

/-- Python `ipaddress.IPv4Network(s)` with the default `strict=True`: at most one
    slash (else `AddressValueError`), a valid address, a valid prefix
    length, and no host bits set (else the uncaught `ValueError`). -/
def parseIPv4Network (s : String) : Except ParseErr Network :=
  match pySplit ['/'] s.toList with
  | [a] => do
    let addr ← parseIPv4Address a
    .ok ⟨addr, 32⟩
  | [a, p] => do
    let addr ← parseIPv4Address a
    let plen ← parsePrefixLen p
    if addr % 2 ^ (32 - plen) ≠ 0 then .error .hostBits else .ok ⟨addr, plen⟩
  | _ => .error .addressValue

/-- Outcome of `generate_ip_allocation` on a master-block string.
    `parseError` is the caught-`AddressValueError` path of source lines
    129-131, which returns an empty row list and the parsed first segment
    of the input; `crash` is any exception the source does not catch
    (`NetmaskValueError`, the strict host-bits `ValueError`, or the
    `AddressValueError` re-raised while building that return value). -/
inductive GenOutcome where
  | ok (rows : List Row) (cursor : Nat)
  | parseError (rows : List Row) (addr : Nat)
  | crash
deriving DecidableEq

/-- Source `generate_ip_allocation` (lines 126-348), including its
    master-block parsing and exception handling. -/
def generate_ip_allocation (s : String) (plan : List PlanItem) : GenOutcome :=
  match parseIPv4Network s with
  | .ok m =>
    let r := generate_core m plan
    .ok r.1 r.2
  | .error .addressValue =>
    match parseIPv4Address ((pySplit ['/'] s.toList).headD []) with
    | .ok a => .parseError [] a
    | .error _ => .crash
  | .error _ => .crash

/-- The `MASTER_PLAN` list compiled into the source (lines 22-91). -/
def MASTER_PLAN : List PlanItem :=
  [{ phase := 1, itemType := "header_with_range", carvingName := some "Cameras",
     purpose := some "Cameras", cidr := some 21, count := some 12,
     carvingLabel := some "Cameras" },
   { phase := 1, itemType := "allocation", category := some "Cameras",
     purpose := some "Cameras", cidr := some 21, count := some 10,
     buildingSpecific := true, carvingLabel := some "Cameras" },
   { phase := 1, itemType := "allocation", category := some "Cameras",
     purpose := some "Reserved", cidr := some 21, count := some 2,
     buildingSpecific := false, carvingLabel := some "Cameras" },
   { phase := 1, itemType := "blank_row" },
   { phase := 1, itemType := "aggregate", category := some "Switch MGMT",
     purpose := some "Switch MGMT Aggregate Block", cidr := some 20,
     name := some "SWITCH_MGMT_AGGREGATE" },
   { phase := 1, itemType := "blank_row" },
   { phase := 1, itemType := "aggregate", category := some "OSPF PEERING",
     purpose := some "OSPF Peering Aggregate Block", cidr := some 21,
     name := some "OSPF_PEERING_AGGREGATE" },
   { phase := 1, itemType := "blank_row" },
   { phase := 1, itemType := "aggregate", category := some "PIDS and Intercoms",
     purpose := some "PIDS and Intercoms Aggregate Block", cidr := some 20,
     name := some "PIDS_INTERCOM_BLOCK" },
   { phase := 1, itemType := "blank_row" },
   { phase := 1, itemType := "remainder", category := some "UNUSED (Master /17 Remainder)",
     purpose := some "UNUSED", cidr := some 24 },
   { phase := 2, itemType := "header_with_range", baseBlock := some "SWITCH_MGMT_AGGREGATE",
     carvingName := some "switch MGMT", purpose := some "management", cidr := some 24,
     carvingLabel := some "management" },
   { phase := 2, itemType := "allocation", baseBlock := some "SWITCH_MGMT_AGGREGATE",
     purpose := some "management", cidr := some 24, count := some 12,
     buildingSpecific := true, carvingLabel := some "management" },
   { phase := 2, itemType := "blank_row" },
   { phase := 2, itemType := "header_with_range", baseBlock := some "SWITCH_MGMT_AGGREGATE",
     carvingName := some "Servers", purpose := some "Servers", cidr := some 27,
     carvingLabel := some "Servers" },
   { phase := 2, itemType := "allocation", baseBlock := some "SWITCH_MGMT_AGGREGATE",
     purpose := some "Servers", cidr := some 27, count := some 12,
     buildingSpecific := true, carvingLabel := some "Servers" },
   { phase := 2, itemType := "blank_row" },
   { phase := 2, itemType := "header_with_range", baseBlock := some "OSPF_PEERING_AGGREGATE",
     carvingName := some "IP OSPF PEERING", purpose := some "IP OSPF PEERING", cidr := some 31,
     carvingLabel := some "IP OSPF PEERING" },
   { phase := 2, itemType := "allocation", baseBlock := some "OSPF_PEERING_AGGREGATE",
     purpose := some "IP OSPF PEERING", cidr := some 31, count := some 12,
     buildingSpecific := true, carvingLabel := some "IP OSPF PEERING" },
   { phase := 2, itemType := "blank_row" },
   { phase := 2, itemType := "header", category := some "UNUSED (Switch MGMT Block Remainder)",
     purpose := some "UNUSED" },
   { phase := 2, itemType := "carve_remainder", baseBlock := some "SWITCH_MGMT_AGGREGATE",
     purpose := some "UNUSED", cidr := some 24, carvingLabel := some "UNUSED" },
   { phase := 2, itemType := "blank_row" },
   { phase := 2, itemType := "header_with_range", baseBlock := some "PIDS_INTERCOM_BLOCK",
     carvingName := some "PIDS", purpose := some "PIDS", cidr := some 24,
     carvingLabel := some "PIDS" },
   { phase := 2, itemType := "allocation", baseBlock := some "PIDS_INTERCOM_BLOCK",
     purpose := some "PIDS", cidr := some 24, count := some 12,
     buildingSpecific := true, carvingLabel := some "PIDS" },
   { phase := 2, itemType := "blank_row" },
   { phase := 2, itemType := "header_with_range", baseBlock := some "PIDS_INTERCOM_BLOCK",
     carvingName := some "Intercoms", purpose := some "Intercoms", cidr := some 27,
     carvingLabel := some "Intercoms" },
   { phase := 2, itemType := "allocation", baseBlock := some "PIDS_INTERCOM_BLOCK",
     purpose := some "Intercoms", cidr := some 27, count := some 12,
     buildingSpecific := true, carvingLabel := some "Intercoms" },
   { phase := 2, itemType := "blank_row" },
   { phase := 2, itemType := "header", category := some "UNUSED (PIDS/Intercoms Block Remainder)",
     purpose := some "UNUSED" },
   { phase := 2, itemType := "carve_remainder", baseBlock := some "PIDS_INTERCOM_BLOCK",
     purpose := some "UNUSED", cidr := some 24, carvingLabel := some "UNUSED" }]

/-- What `main` observably does: the console lines this model tracks and
    the process exit code. -/
structure MainResult where
  printed : List String
  exitCode : Nat
deriving DecidableEq

/-- Source `main` (lines 360-426) on `sys.argv` (program name first).
    Tracked console lines are the usage message and the caught-parse-error
    message; the success path's banner, spreadsheet writing and final
    "Done" line are not modelled (no claim inspects them) and an uncaught
    exception is a bare nonzero exit.  The key control flow: a missing
    argument prints usage and exits 1; a caught parse error leaves `res`
    empty, so the `if res:` block is skipped and the function falls through
    to exit 0. -/
def mainModel (argv : List String) : MainResult :=
  if argv.length < 2 then ⟨["Usage: python ip_planner.py <subnet>"], 1⟩
  else
    match generate_ip_allocation (argv.getD 1 "") MASTER_PLAN with
    | .ok _ _ => ⟨[], 0⟩
    | .parseError _ _ => ⟨["Error: Invalid IP network format."], 0⟩
    | .crash => ⟨[], 1⟩

/-- A string containing no space character; the dotted-quad strings the
    planner writes into range fields all satisfy this. -/
def noSpace (s : String) : Prop := ∀ c ∈ s.toList, c ≠ ' '

/-- Master block for the C1 run: `10.0.0.0/24`. -/
def c1master : Network := ⟨167772160, 24⟩

/-- C1 run: reserve aggregate `A` as a `/26`, carve one `/28` from it,
    then carve its remainder into `/28`s. -/
def c1plan : List PlanItem :=
  [{ phase := 1, itemType := "aggregate", purpose := some "AGG", cidr := some 26,
     name := some "A" },
   { phase := 2, itemType := "allocation", baseBlock := some "A", purpose := some "S",
     cidr := some 28, count := some 1, carvingLabel := some "S" },
   { phase := 2, itemType := "carve_remainder", baseBlock := some "A",
     purpose := some "UNUSED", cidr := some 28, carvingLabel := some "UNUSED" }]

/-- Master block for the C3 run: `10.0.0.0/25`. -/
def c3master : Network := ⟨167772160, 25⟩

/-- C3 run: a single phase-1 allocation of one `/24` from a `/25` master. -/
def c3plan : List PlanItem :=
  [{ phase := 1, itemType := "allocation", purpose := some "P", cidr := some 24,
     count := some 1 }]

/-- Master block for the C4 run: `10.0.0.0/24`. -/
def c4master : Network := ⟨167772160, 24⟩

/-- C4 run: reserve aggregate `A` as a `/26`, ask for five `/28`s from it
    (only four fit), then a blank row and a plain header follow. -/
def c4plan : List PlanItem :=
  [{ phase := 1, itemType := "aggregate", purpose := some "AGG", cidr := some 26,
     name := some "A" },
   { phase := 2, itemType := "allocation", baseBlock := some "A", purpose := some "S",
     cidr := some 28, count := some 5, carvingLabel := some "S" },
   { phase := 2, itemType := "blank_row" },
   { phase := 2, itemType := "header", category := some "END" }]

/-- Master block for the C5 run: `10.0.0.0/24`. -/
def c5master : Network := ⟨167772160, 24⟩

/-- C5 run: reserve aggregate `A` as a `/26`, then a `header_with_range`
    over `A` followed immediately by a blank row, so its scan finds no
    matching record and the aggregate fallback fires. -/
def c5plan : List PlanItem :=
  [{ phase := 1, itemType := "aggregate", purpose := some "AGG", cidr := some 26,
     name := some "A" },
   { phase := 2, itemType := "header_with_range", baseBlock := some "A",
     carvingName := some "X", carvingLabel := some "X" },
   { phase := 2, itemType := "blank_row" }]

/-- Master block for the C7 run: `10.0.0.0/24`. -/
def c7master : Network := ⟨167772160, 24⟩

/-- C7 run: two phase-1 aggregate steps registering the same name `A`
    (first as a `/26`, then as a `/27`), then a phase-2 carve from `A`. -/
def c7plan : List PlanItem :=
  [{ phase := 1, itemType := "aggregate", purpose := some "G", cidr := some 26,
     name := some "A" },
   { phase := 1, itemType := "aggregate", purpose := some "G", cidr := some 27,
     name := some "A" },
   { phase := 2, itemType := "allocation", baseBlock := some "A", purpose := some "S",
     cidr := some 28, count := some 1, carvingLabel := some "S" }]

/-- Every row the scan returns comes from the scanned list. -/
theorem scanMatches_subset (tag : Option String) (l : List Row) :
    ∀ z ∈ scanMatches tag l, z ∈ l := by
  induction l with
  | nil => intro z hz; simp [scanMatches] at hz
  | cons r rest ih =>
    intro z hz
    unfold scanMatches at hz
    by_cases hb : (r.building == "") = true
    · simp [hb] at hz
    · simp only [hb, if_false, Bool.false_eq_true] at hz
      by_cases hp : r.isRangePlaceholder = true
      · simp [hp] at hz
      · simp only [hp, if_false, Bool.false_eq_true] at hz
        by_cases hm : rowMatches tag r = true
        · simp only [hm, if_true] at hz
          rcases List.mem_cons.mp hz with h | h
          · exact h ▸ List.mem_cons_self r rest
          · exact List.mem_cons_of_mem r (ih z h)
        · simp only [hm, if_false, Bool.false_eq_true] at hz
          exact List.mem_cons_of_mem r (ih z hz)

/-- C1: the no-overlap invariant fails on the code.  Running the planner
    on master `10.0.0.0/24` with plan `c1plan`, the phase-2 allocation
    emits `10.0.0.0/28`, and the `carve_remainder` step — whose cursor
    stands at `10.0.0.16` — re-emits the very same `10.0.0.0/28` (the
    source masks the cursor down to the aggregate's own network address),
    so two emitted records overlap. -/
theorem c1_remainder_overlaps_allocation :
    ((generate_core c1master c1plan).1.getD 0 emptyRow).network = some ⟨167772160, 28⟩ ∧
    ((generate_core c1master c1plan).1.getD 1 emptyRow).network = some ⟨167772160, 28⟩ ∧
    overlapsB ⟨167772160, 28⟩ ⟨167772160, 28⟩ = true ∧
    (generate_core c1master c1plan).1.length = 5 := by decide

/-- C2: the carve operation rounds the cursor DOWN, not up.  At cursor
    `10.0.0.5` (value 167772165) a `/24` carve yields `10.0.0.0/24`
    (167772160), not the `10.0.1.0/24` (167772416) the claim requires;
    the phase-1 re-derive step lands on the same rounded-down network. -/
theorem c2_carve_rounds_down :
    ipNetworkNonstrict 167772165 24 = ⟨167772160, 24⟩ ∧
    phase1Carve 167772165 24 = (167772160, ⟨167772160, 24⟩) ∧
    ipNetworkNonstrict 167772165 24 ≠ ⟨167772416, 24⟩ := by decide

/-- C3: containment in the master fails on the code.  On master
    `10.0.0.0/25` a single `/24` allocation passes the source's
    `overlaps` check and is emitted, although its broadcast address
    `10.0.0.255` lies past the master's broadcast `10.0.0.127`. -/
theorem c3_allocation_escapes_master :
    ((generate_core c3master c3plan).1.getD 0 emptyRow).network = some ⟨167772160, 24⟩ ∧
    (generate_core c3master c3plan).1.length = 1 ∧
    broadcastAddress c3master < broadcastAddress ⟨167772160, 24⟩ := by decide

/-- C4 counterexample: no ERROR marker record exists.  Asking for five
    `/28`s from a `/26` aggregate, the run's entire output is the four
    fitting data rows followed by the later steps' blank row and header —
    the exhausted step appends nothing beyond its successful carves. -/
theorem c4_counterexample :
    (generate_core c4master c4plan).1 =
      [format_allocation_row ⟨167772160, 28⟩ "" "S",
       format_allocation_row ⟨167772176, 28⟩ "" "S",
       format_allocation_row ⟨167772192, 28⟩ "" "S",
       format_allocation_row ⟨167772208, 28⟩ "" "S",
       emptyRow,
       { emptyRow with building := "END" }] := by decide

/-- C4 as amended: when a phase-2 carve step exhausts its aggregate
    mid-loop, the loop stops after the last fitting network, no ERROR
    record is appended, and the remaining plan steps still execute (the
    blank row and the header appear after the four data rows). -/
theorem c4_amended :
    (generate_core c4master c4plan).1.length = 6 ∧
    ((generate_core c4master c4plan).1.getD 3 emptyRow).network = some ⟨167772208, 28⟩ ∧
    ((generate_core c4master c4plan).1.getD 4 emptyRow) = emptyRow ∧
    ((generate_core c4master c4plan).1.getD 5 emptyRow).building = "END" ∧
    ((generate_core c4master c4plan).1.getD 5 emptyRow).network = none := by decide

/-- C5 counterexample: the no-match fallback is the aggregate's usable
    span, not its full span.  The `header_with_range` over the `/26`
    aggregate `10.0.0.0/26` with no matching records resolves to
    `10.0.0.1 - 10.0.0.62`, not the full `10.0.0.0 - 10.0.0.63`. -/
theorem c5_counterexample :
    ((generate_core c5master c5plan).1.getD 0 emptyRow).building =
      "X - 10.0.0.1 - 10.0.0.62" ∧
    "X - 10.0.0.1 - 10.0.0.62" ≠ "X - 10.0.0.0 - 10.0.0.63" := by decide

/-- C6: the allocator is deterministic — the embedding is a pure function
    of the master block and the plan, so two runs on the same input are
    the same output record sequence. -/
theorem c6_deterministic (master : Network) (s : String) (plan : List PlanItem) :
    generate_core master plan = generate_core master plan ∧
    generate_ip_allocation s plan = generate_ip_allocation s plan :=
  ⟨rfl, rfl⟩

/-- C7 counterexample: re-registering the name `A` does not fail fast; the
    registry silently holds the second network (`10.0.0.64/27`, not the
    first `10.0.0.0/26`), and the run continues — the later phase-2 step
    carves `10.0.0.64/28` out of the replacement block. -/
theorem c7_counterexample :
    phase1Registry c7master c7plan "A" = some ⟨167772224, 27⟩ ∧
    (⟨167772224, 27⟩ : Network) ≠ ⟨167772160, 26⟩ ∧
    ((generate_core c7master c7plan).1.getD 0 emptyRow).network = some ⟨167772224, 28⟩ ∧
    (generate_core c7master c7plan).1.length = 1 := by decide

/-- C9 counterexample: the invalid master block `10.0.0.0/24/7` (two
    slashes) is caught as an address error, the program prints an error
    line — not the usage message — and exits 0, not non-zero. -/
theorem c9_counterexample :
    (mainModel ["ip_planner.py", "10.0.0.0/24/7"]).exitCode = 0 ∧
    "Usage: python ip_planner.py <subnet>" ∉
      (mainModel ["ip_planner.py", "10.0.0.0/24/7"]).printed := by decide

/-- C9 as amended: a missing argument prints the usage message and exits
    1, but an invalid CIDR need not exit non-zero: one whose parse failure
    is a caught address error with a parseable address part prints an
    error line and exits 0. -/
theorem c9_amended :
    mainModel ["ip_planner.py"] = ⟨["Usage: python ip_planner.py <subnet>"], 1⟩ ∧
    mainModel ["ip_planner.py", "10.0.0.0/24/7"] =
      ⟨["Error: Invalid IP network format."], 0⟩ := by decide

/-- C8: for every allocated network the reported host count is
    `2 ^ (32 - prefix) - 2` when the prefix is at most 30, and the full
    `2 ^ (32 - prefix)` when it is 31 or more, in which case the displayed
    range is the full network-to-broadcast range instead of
    first-usable-to-last-usable. -/
theorem c8_usable_host_count (n : Network) (b p : String) :
    (n.prefixlen ≤ 30 →
       (format_allocation_row n b p).hosts = some (2 ^ (32 - n.prefixlen) - 2) ∧
       (format_allocation_row n b p).ipRange =
         ipToString (n.addr + 1) ++ " - " ++ ipToString (broadcastAddress n - 1)) ∧
    (31 ≤ n.prefixlen →
       (format_allocation_row n b p).hosts = some (2 ^ (32 - n.prefixlen)) ∧
       (format_allocation_row n b p).ipRange =
         ipToString n.addr ++ " - " ++ ipToString (broadcastAddress n)) := by
  unfold format_allocation_row numAddresses blockSize
  constructor
  · intro h
    rw [if_neg (by omega)]
    exact ⟨rfl, rfl⟩
  · intro h
    rw [if_pos h]
    exact ⟨rfl, rfl⟩

/-- Witness for C8 at a `/24` and at a `/31`. -/
theorem c8_witness :
    (format_allocation_row ⟨167772160, 24⟩ "" "P").hosts = some 254 ∧
    (format_allocation_row ⟨167772160, 31⟩ "" "P").hosts = some 2 ∧
    (format_allocation_row ⟨167772160, 31⟩ "" "P").ipRange = "10.0.0.0 - 10.0.0.1" := by
  refine ⟨?_, ?_, ?_⟩
  · have h := (c8_usable_host_count ⟨167772160, 24⟩ "" "P").1 (by decide)
    rw [h.1]
    decide
  · have h := (c8_usable_host_count ⟨167772160, 31⟩ "" "P").2 (by decide)
    rw [h.1]
    decide
  · have h := (c8_usable_host_count ⟨167772160, 31⟩ "" "P").2 (by decide)
    rw [h.2]
    decide

/-- The scan up to an empty-building row is the scan of the rows before
    it, when none of those earlier rows is blank or a placeholder. -/
theorem scanMatches_append_stop (tag : Option String) :
    ∀ (xs : List Row) (r : Row) (ys : List Row),
      (∀ x ∈ xs, x.building ≠ "" ∧ x.isRangePlaceholder = false) →
      r.building = "" →
      scanMatches tag (xs ++ r :: ys) = scanMatches tag xs
  | [], r, ys, _, hr => by
    simp only [List.nil_append]
    unfold scanMatches
    rw [if_pos (by simp [hr])]
  | x :: xs, r, ys, hxs, hr => by
    have hx := hxs x (List.mem_cons_self x xs)
    have ih := scanMatches_append_stop tag xs r ys
      (fun a ha => hxs a (List.mem_cons_of_mem _ ha)) hr
    have hb : (x.building == "") = false := beq_eq_false_iff_ne.mpr hx.1
    simp only [List.cons_append]
    unfold scanMatches
    simp only [hb, Bool.false_eq_true, if_false, hx.2]
    by_cases hm : rowMatches tag x = true
    · simp only [hm, if_true, ih]
    · simp only [Bool.not_eq_true] at hm
      simp only [hm, Bool.false_eq_true, if_false, ih]

/-- C10: the resolver's forward scan stops at the first row whose building
    field is the empty string — a data record with an empty building label
    ends the scan exactly as a blank separator does, and nothing at or
    past it enters the header's match list: the scan over the rows before
    it is all that remains, and every collected row comes from those
    earlier rows. -/
theorem c10_empty_building_ends_scan (tag : Option String) (xs ys : List Row) (r : Row)
    (hxs : ∀ x ∈ xs, x.building ≠ "" ∧ x.isRangePlaceholder = false)
    (hr : r.building = "") :
    scanMatches tag (xs ++ r :: ys) = scanMatches tag xs ∧
    ∀ z ∈ scanMatches tag (xs ++ r :: ys), z ∈ xs := by
  have heq := scanMatches_append_stop tag xs r ys hxs hr
  refine ⟨heq, fun z hz => ?_⟩
  rw [heq] at hz
  exact scanMatches_subset tag xs z hz

/-- Witness for C10: a matching data record with an empty building label
    ends the scan; only the one earlier row is collected. -/
theorem c10_witness :
    scanMatches (some "T")
        ([{ emptyRow with building := "A", networkAddress := "1", carvingLabel := some "T" }] ++
          { emptyRow with networkAddress := "2", carvingLabel := some "T" } ::
            [{ emptyRow with building := "C", networkAddress := "3", carvingLabel := some "T" }]) =
      scanMatches (some "T")
        [{ emptyRow with building := "A", networkAddress := "1", carvingLabel := some "T" }] ∧
    ∀ z ∈ scanMatches (some "T")
        ([{ emptyRow with building := "A", networkAddress := "1", carvingLabel := some "T" }] ++
          { emptyRow with networkAddress := "2", carvingLabel := some "T" } ::
            [{ emptyRow with building := "C", networkAddress := "3", carvingLabel := some "T" }]),
      z ∈ [{ emptyRow with building := "A", networkAddress := "1", carvingLabel := some "T" }] :=
  c10_empty_building_ends_scan (some "T")
    [{ emptyRow with building := "A", networkAddress := "1", carvingLabel := some "T" }]
    [{ emptyRow with building := "C", networkAddress := "3", carvingLabel := some "T" }]
    { emptyRow with networkAddress := "2", carvingLabel := some "T" }
    (by decide) rfl

/-- Every character `digitsAux` emits is a decimal digit character. -/
theorem digitsAux_digits :
    ∀ (fuel n : Nat), ∀ c ∈ digitsAux fuel n, ∃ d, d < 10 ∧ c = digitChar d
  | 0, n => by intro c hc; simp [digitsAux] at hc
  | fuel + 1, n => by
    intro c hc
    unfold digitsAux at hc
    by_cases h : n < 10
    · rw [if_pos h] at hc
      simp only [List.mem_singleton] at hc
      exact ⟨n, h, hc⟩
    · rw [if_neg h] at hc
      rcases List.mem_append.mp hc with h1 | h1
      · exact digitsAux_digits fuel (n / 10) c h1
      · simp only [List.mem_singleton] at h1
        exact ⟨n % 10, Nat.mod_lt _ (by omega), h1⟩

/-- Decimal digit characters are not the space character. -/
theorem digitChar_ne_space (d : Nat) (hd : d < 10) : digitChar d ≠ ' ' := by
  interval_cases d <;> decide

/-- The string `natToStr n` never contains a space. -/
theorem noSpace_natToStr (n : Nat) : noSpace (natToStr n) := by
  intro c hc
  obtain ⟨d, hd, rfl⟩ := digitsAux_digits (n + 1) n c hc
  exact digitChar_ne_space d hd

/-- String concatenation preserves spacelessness. -/
theorem noSpace_append (a b : String) (ha : noSpace a) (hb : noSpace b) :
    noSpace (a ++ b) := by
  intro c hc
  rcases List.mem_append.mp hc with h | h
  · exact ha c h
  · exact hb c h

/-- Dotted-quad address strings never contain a space. -/
theorem noSpace_ipToString (a : Nat) : noSpace (ipToString a) := by
  unfold ipToString
  repeat' apply noSpace_append
  all_goals first
    | exact noSpace_natToStr _
    | · unfold noSpace
        decide

/-- A list is a prefix of itself followed by anything. -/
theorem isPrefixL_append (s t : List Char) : isPrefixL s (s ++ t) = true := by
  induction s with
  | nil => rfl
  | cons a s ih => simp [isPrefixL, ih]

/-- Splitting at a leading separator. -/
theorem splitFirst_sep_append (B : List Char) :
    splitFirst sepRange (sepRange ++ B) = some ([], B) := by
  show splitFirst sepRange (' ' :: '-' :: ' ' :: B) = some ([], B)
  unfold splitFirst
  rw [if_pos
    (show isPrefixL sepRange (' ' :: '-' :: ' ' :: B) = true from isPrefixL_append sepRange B)]
  rfl

/-- The first separator occurrence in `A ++ sep ++ B` is the middle one
    when `A` is space-free. -/
theorem splitFirst_mid (A B : List Char) (hA : ∀ c ∈ A, c ≠ ' ') :
    splitFirst sepRange (A ++ (sepRange ++ B)) = some (A, B) := by
  induction A with
  | nil => simpa using splitFirst_sep_append B
  | cons a A ih =>
    have ha : a ≠ ' ' := hA a (List.mem_cons_self a A)
    have ih2 := ih fun c hc => hA c (List.mem_cons_of_mem _ hc)
    show splitFirst sepRange (a :: (A ++ (sepRange ++ B))) = some (a :: A, B)
    unfold splitFirst
    have hp : isPrefixL sepRange (a :: (A ++ (sepRange ++ B))) = false := by
      have : (' ' == a) = false := beq_eq_false_iff_ne.mpr (Ne.symm ha)
      simp [sepRange, isPrefixL, this]
    rw [if_neg (by simp [hp])]
    rw [ih2]

/-- A space-free list contains no separator occurrence at all. -/
theorem splitFirst_none (B : List Char) (hB : ∀ c ∈ B, c ≠ ' ') :
    splitFirst sepRange B = none := by
  induction B with
  | nil => rfl
  | cons b B ih =>
    have hb : b ≠ ' ' := hB b (List.mem_cons_self b B)
    have ih2 := ih fun c hc => hB c (List.mem_cons_of_mem _ hc)
    unfold splitFirst
    have hp : isPrefixL sepRange (b :: B) = false := by
      have : (' ' == b) = false := beq_eq_false_iff_ne.mpr (Ne.symm hb)
      simp [sepRange, isPrefixL, this]
    rw [if_neg (by simp [hp])]
    rw [ih2]

/-- With no separator present the splitter returns the list whole, at any
    fuel. -/
theorem pySplitAux_of_none (sep : List Char) (f : Nat) (cs : List Char)
    (h : splitFirst sep cs = none) : pySplitAux sep f cs = [cs] := by
  cases f <;> simp [pySplitAux, h]

/-- Splitting `A ++ " - " ++ B` for space-free `A` and `B` yields exactly
    `[A, B]`, matching Python `"{A} - {B}".split(" - ")`. -/
theorem pySplit_pair (A B : List Char) (hA : ∀ c ∈ A, c ≠ ' ')
    (hB : ∀ c ∈ B, c ≠ ' ') :
    pySplit sepRange (A ++ (sepRange ++ B)) = [A, B] := by
  unfold pySplit
  unfold pySplitAux
  rw [splitFirst_mid A B hA]
  dsimp only
  rw [pySplitAux_of_none _ _ _ (splitFirst_none B hB)]

/-- Round trip from a string to its character list and back. -/
theorem asString_toList (s : String) : s.toList.asString = s := rfl

/-- Character list of a concatenation. -/
theorem toList_append (a b : String) : (a ++ b).toList = a.toList ++ b.toList := rfl

/-- Round trip through the underlying character data. -/
theorem asString_data (s : String) : s.data.asString = s := rfl

/-- The literal `" - "` separator as a character list. -/
theorem toList_sepRange : (" - " : String).toList = sepRange := rfl

/-- C5 as amended: a `header_with_range` row's displayed range is, when
    the forward scan finds at least one matching record, the first match's
    range start through the last match's range end; when it finds none it
    falls back to the associated aggregate's usable span
    `network+1 - broadcast-1` (not the full network-to-broadcast span), or
    to "Range Not Determined" when no aggregate is associated. -/
theorem c5_amended (acc : List Row) (row : Row) (_hp : row.isRangePlaceholder = true) :
    (scanMatches row.carvingLabel (acc.drop row.allocationStartIndex) = [] →
       (∀ agg, row.aggregateNetwork = some agg →
          (fillRow acc row).building =
            row.carvingName.getD "None" ++ " - " ++ ipToString (agg.addr + 1) ++ " - " ++
              ipToString (broadcastAddress agg - 1)) ∧
       (row.aggregateNetwork = none →
          (fillRow acc row).building =
            row.carvingName.getD "None" ++ " - Range Not Determined")) ∧
    (∀ s1 e1 s2 e2 : String,
       noSpace s1 → noSpace e1 → noSpace s2 → noSpace e2 →
       scanMatches row.carvingLabel (acc.drop row.allocationStartIndex) ≠ [] →
       ((scanMatches row.carvingLabel (acc.drop row.allocationStartIndex)).headD
           emptyRow).ipRange = s1 ++ " - " ++ e1 →
       ((scanMatches row.carvingLabel (acc.drop row.allocationStartIndex)).getLastD
           emptyRow).ipRange = s2 ++ " - " ++ e2 →
       (fillRow acc row).building =
         row.carvingName.getD "None" ++ " - " ++ s1 ++ " - " ++ e2) := by
  constructor
  · intro hempty
    constructor
    · intro agg hagg
      simp [fillRow, hempty, hagg]
    · intro hagg
      simp [fillRow, hempty, hagg]
  · intro s1 e1 s2 e2 h1 h2 h3 h4 hne hfst hlst
    have hie : (scanMatches row.carvingLabel (acc.drop row.allocationStartIndex)).isEmpty
        = false := by
      cases h : (scanMatches row.carvingLabel (acc.drop row.allocationStartIndex)).isEmpty
      · rfl
      · exact absurd (List.isEmpty_iff.mp h) hne
    have e1eq : (s1 ++ " - " ++ e1).toList = s1.toList ++ (sepRange ++ e1.toList) := by
      rw [toList_append, toList_append, List.append_assoc, toList_sepRange]
    have e2eq : (s2 ++ " - " ++ e2).toList = s2.toList ++ (sepRange ++ e2.toList) := by
      rw [toList_append, toList_append, List.append_assoc, toList_sepRange]
    simp only [fillRow, hie, Bool.false_eq_true, if_false, hfst, hlst, e1eq, e2eq,
      pySplit_pair s1.toList e1.toList h1 h2, pySplit_pair s2.toList e2.toList h3 h4,
      List.headD_cons, List.getLastD_cons, asString_toList]
    simp [List.getLastD, asString_data, asString_toList]

/-- Witness for C5 at a one-row match list. -/
theorem c5_witness :
    (fillRow
        [{ emptyRow with
            building := "B", networkAddress := "10.0.0.0",
            ipRange := "10.0.0.1 - 10.0.0.14", carvingLabel := some "T" }]
        { emptyRow with
            isRangePlaceholder := true, carvingName := some "H",
            carvingLabel := some "T" }).building = "H - 10.0.0.1 - 10.0.0.14" := by
  have h := (c5_amended
      [{ emptyRow with
          building := "B", networkAddress := "10.0.0.0",
          ipRange := "10.0.0.1 - 10.0.0.14", carvingLabel := some "T" }]
      { emptyRow with
          isRangePlaceholder := true, carvingName := some "H",
          carvingLabel := some "T" } rfl).2
      "10.0.0.1" "10.0.0.14" "10.0.0.1" "10.0.0.14"
      (by unfold noSpace; decide) (by unfold noSpace; decide)
      (by unfold noSpace; decide) (by unfold noSpace; decide)
      (by decide) (by decide) (by decide)
  exact h.trans (by decide)

/-- C7 as amended: an `aggregate` step never checks for an existing entry;
    whatever the registries already hold under the step's name, executing
    it binds the name to the freshly carved network (and its carve pointer
    to that network's address) and the run continues — there is no
    `DuplicateAggregate` failure. -/
theorem c7_amended (master : Network) (st : St1) (nm pur : String) (c : Nat)
    (hc : c ≤ 32)
    (hal : st.cursor % 2 ^ (32 - c) = 0)
    (hov : overlapsB master ⟨st.cursor, c⟩ = true) :
    phase1Step master st
        { phase := 1, itemType := "aggregate", name := some nm, purpose := some pur,
          cidr := some c, count := some 1 } =
      .inr { cursor := broadcastAddress ⟨st.cursor, c⟩ + 1,
             aggPtrs := setKey nm ⟨st.cursor, c⟩ st.aggPtrs,
             carvePtrs := setKey nm st.cursor st.carvePtrs,
             results := st.results } ∧
    (setKey nm (⟨st.cursor, c⟩ : Network) st.aggPtrs).lookup nm = some ⟨st.cursor, c⟩ := by
  have hmask : ipNetworkNonstrict st.cursor c = ⟨st.cursor, c⟩ := by
    simp [ipNetworkNonstrict, hal]
  have hcarve : phase1Carve st.cursor c = (st.cursor, ⟨st.cursor, c⟩) := by
    simp [phase1Carve, hmask]
  constructor
  · have h32 : ¬ 32 < c := by omega
    have hb1 : (("aggregate" : String) == "blank_row") = false := rfl
    have hb2 : (("aggregate" : String) == "header") = false := rfl
    have hb3 : (("aggregate" : String) == "header_with_range") = false := rfl
    have hb4 : (("aggregate" : String) == "allocation") = false := rfl
    have hb5 : (("aggregate" : String) == "aggregate") = true := rfl
    simp only [phase1Step, hb1, hb2, hb3, hb4, hb5, Bool.false_eq_true, Bool.false_or,
      if_false, if_true, Option.getD_some]
    simp [phase1AllocLoop, hcarve, h32, hov]
  · simp [setKey, List.lookup]

/-- Witness for C7: the name `A` is already bound, and the step rebinds it
    to the new `10.0.0.0/26` without failing. -/
theorem c7_witness :
    phase1Step ⟨167772160, 24⟩
        { cursor := 167772160, aggPtrs := [("A", ⟨1, 2⟩)], carvePtrs := [("A", 5)],
          results := [] }
        { phase := 1, itemType := "aggregate", name := some "A", purpose := some "G",
          cidr := some 26, count := some 1 } =
      .inr { cursor := broadcastAddress ⟨167772160, 26⟩ + 1,
             aggPtrs := setKey "A" ⟨167772160, 26⟩ [("A", ⟨1, 2⟩)],
             carvePtrs := setKey "A" 167772160 [("A", 5)],
             results := [] } ∧
    (setKey "A" (⟨167772160, 26⟩ : Network) [("A", ⟨1, 2⟩)]).lookup "A" =
      some ⟨167772160, 26⟩ :=
  c7_amended ⟨167772160, 24⟩
    { cursor := 167772160, aggPtrs := [("A", ⟨1, 2⟩)], carvePtrs := [("A", 5)],
      results := [] }
    "A" "G" 26 (by decide) (by decide) (by decide)

end IpPlanner
